import Mathlib

/-!
Verification of the `antithrow` library: a shallow embedding of its
`Result` / `ResultAsync` value types, the `chain()` generator driver
(src/src/chain.ts), the standard-schema bridge
(src/packages/standard-schema/src/validate.ts) and the std `fetch`
wrapper (src/packages/std/src/fetch.ts), together with theorems about
their behaviour.

JavaScript effects are made explicit: a promise that has settled is an
`Except X A` (`.error x` models rejection with reason `x`); a raised
exception is the `.error` branch of an `Except`; the side effects a
generator body performs are logged in a trace of `Nat` tags.
-/

namespace Antithrow

/-- Modelled from the spec (§3 Data model; result.ts is not in the source
tree): the two-variant tagged union. `ok v` holds a success value, `err e`
holds a failure value. -/
inductive Result (T E : Type) where
  | ok (value : T)
  | err (error : E)
deriving DecidableEq, Repr

/-- Modelled from the spec (§4.1): `isOk()` predicate. -/
def Result.isOk {T E : Type} : Result T E → Bool
  | .ok _ => true
  | .err _ => false

/-- Modelled from the spec (§4.1): `isErr()` predicate. -/
def Result.isErr {T E : Type} : Result T E → Bool
  | .ok _ => false
  | .err _ => true

/-- Modelled from the spec (§4.2): `map(fn)` applies `fn` to an `Ok`
payload producing a new `Ok`; an `Err` passes through unchanged. -/
def Result.map {T E U : Type} (r : Result T E) (fn : T → U) : Result U E :=
  match r with
  | .ok v => .ok (fn v)
  | .err e => .err e

/-- Modelled from the spec (§4.2): `mapErr(fn)` transforms only the `Err`
payload; an `Ok` passes through unchanged. -/
def Result.mapErr {T E F : Type} (r : Result T E) (fn : E → F) : Result T F :=
  match r with
  | .ok v => .ok v
  | .err e => .err (fn e)

/-- Modelled from the spec (§4.2): `andThen(fn)` feeds the `Ok` payload to
`fn`, which returns a new `Result`; on `Err` it short-circuits, returning
the original error. -/
def Result.andThen {T E U : Type} (r : Result T E) (fn : T → Result U E) : Result U E :=
  match r with
  | .ok v => fn v
  | .err e => .err e

/-- Modelled from the spec (§4.2 `Result.all`): combines a list of
`Result`s; if every element is `Ok` the unwrapped values are collected in
input order, otherwise the first `Err` in iteration order is returned
unchanged; the empty list gives `ok []`. -/
def Result.all {T E : Type} : List (Result T E) → Result (List T) E
  | [] => .ok []
  | .err e :: _ => .err e
  | .ok v :: rest => (Result.all rest).map (fun vs => v :: vs)

/-- Modelled from the spec (§4.2 `Result.try`, source name `Result.try`):
invokes a synchronous computation; a raised value (`.error x`) is caught
and wrapped as `Err`, a returned value is wrapped as `Ok`. -/
def Result.tryFn {A X : Type} (call : Except X A) : Result A X :=
  match call with
  | .ok a => .ok a
  | .error x => .err x

/-- A settled `ResultAsync<T, E>`: a deferred computation that either
resolved to a `Result T E` (`.ok r`) or rejected with a fatal reason of
type `X` (`.error x`). -/
abbrev ResultAsync (T E X : Type) := Except X (Result T E)

/-- Modelled from the spec (§4.3 `ResultAsync.fromPromise`): wraps an
already-well-formed deferred `Result` WITHOUT catching rejection — a
rejection of the supplied promise passes through as a fatal failure. -/
def ResultAsync.fromPromise {T E X : Type} (p : Except X (Result T E)) : ResultAsync T E X :=
  p

/-- The observable outcome of calling a JavaScript function that may
return a plain value, throw synchronously, or return a promise (which in
turn settles by resolving or rejecting). -/
inductive JsOutcome (A X : Type) where
  | sync (a : A)
  | threw (x : X)
  | promised (p : Except X A)

/-- Modelled from the spec (§4.3 `ResultAsync.try`, source name
`ResultAsync.try`): runs the function; a synchronous raise and an
asynchronous rejection are both caught and wrapped as `Err`, a returned or
resolved value becomes `Ok`. The wrapper itself never rejects. -/
def ResultAsync.tryFn {A X : Type} (call : JsOutcome A X) : ResultAsync A X X :=
  match call with
  | .sync a => Except.ok (Result.ok a)
  | .threw x => Except.ok (Result.err x)
  | .promised (Except.ok a) => Except.ok (Result.ok a)
  | .promised (Except.error x) => Except.ok (Result.err x)

/-- Modelled from the spec (§4.3): `mapErr` on the async wrapper resolves
the deferred computation, then applies the synchronous `mapErr`; a
rejection passes through untouched. -/
def ResultAsync.mapErr {T E F X : Type} (r : ResultAsync T E X) (fn : E → F) : ResultAsync T F X :=
  match r with
  | .ok res => .ok (res.mapErr fn)
  | .error x => .error x

/-- Modelled from the spec (§4.3): `andThen` on the async wrapper with a
callback returning a synchronous `Result`; a rejection passes through
untouched. -/
def ResultAsync.andThen {T E U X : Type} (r : ResultAsync T E X) (fn : T → Result U E) :
    ResultAsync U E X :=
  match r with
  | .ok res => .ok (res.andThen fn)
  | .error x => .error x

/-- A step-sequence body: the code a user writes inside
`chain(function* () ... )`. `A` is the payload type unwrapped by the
`yield*` steps, `T` the return type, `E` the error type, `X` the type of
raised exceptions. `eff n k` performs an observable side effect tagged `n`
and continues as `k`; `step r k` is `yield* r` (an `Ok` payload feeds the
continuation, an `Err` is yielded to the driver); `tryFin inner fin` wraps
`inner` in a `try ... finally` whose finally block performs the effects
`fin`. -/
inductive Body (A T E X : Type) where
  | ret (v : T)
  | throwExn (x : X)
  | eff (n : Nat) (k : Body A T E X)
  | step (r : Result A E) (k : A → Body A T E X)
  | tryFin (inner : Body A T E X) (fin : List Nat)

/-- Outcome of the first `iter.next()` on a generator running a `Body`:
`completed v tr` — the body returned `v`, having performed effects `tr`;
`suspended e pend tr` — the body yielded the failure token `Err e` after
effects `tr`, with the finally blocks `pend` (innermost first) pending and
due to run if `iter.return()` is invoked; `raised x tr` — the body raised
`x` after effects `tr`. -/
inductive Adv (T E X : Type) where
  | completed (v : T) (tr : List Nat)
  | suspended (e : E) (pend : List (List Nat)) (tr : List Nat)
  | raised (x : X) (tr : List Nat)
deriving DecidableEq, Repr

/-- Prepends the effect `n` to the trace of an advance outcome. -/
def Adv.addEff {T E X : Type} (n : Nat) : Adv T E X → Adv T E X
  | .completed v tr => .completed v (n :: tr)
  | .suspended e pend tr => .suspended e pend (n :: tr)
  | .raised x tr => .raised x (n :: tr)

/-- JavaScript `try ... finally` semantics around an advance outcome: on
normal completion or a raise the finally block runs at once (its effects
are appended to the trace); at a suspension it is recorded as pending,
outside any finally blocks already pending from deeper nesting. -/
def Adv.addFin {T E X : Type} (fin : List Nat) : Adv T E X → Adv T E X
  | .completed v tr => .completed v (tr ++ fin)
  | .suspended e pend tr => .suspended e (pend ++ [fin]) tr
  | .raised x tr => .raised x (tr ++ fin)

/-- JavaScript generator semantics of the single `iter.next()` issued by
`chain`: run the body until it returns, raises, or yields its first `Err`.
A `yield* ok(v)` never suspends — the payload feeds the continuation
inline — so only an `Err` step suspends the generator. -/
def next1 {A T E X : Type} : Body A T E X → Adv T E X
  | .ret v => .completed v []
  | .throwExn x => .raised x []
  | .eff n k => Adv.addEff n (next1 k)
  | .step (.ok a) k => next1 (k a)
  | .step (.err e) _ => .suspended e [] []
  | .tryFin inner fin => Adv.addFin fin (next1 inner)

/-- The sync overload of `chain` (src/src/chain.ts, lines 55, 58, 76–85),
paired with the trace of side effects the call performs. The driver
advances the generator exactly once. If the advance completed, the return
value is wrapped in `Ok`. If it suspended (yielded an `Err`), the driver
invokes `iter.return(undefined)` — which runs the pending finally blocks,
innermost first — and returns the yielded failure token unchanged. If the
body raised, there is no catch in `chain`: the raise propagates
(`Except.error`). -/
def chain {A T E X : Type} (g : Body A T E X) : Except X (Result T E) × List Nat :=
  match next1 g with
  | .completed v tr => (Except.ok (Result.ok v), tr)
  | .suspended e pend tr => (Except.ok (Result.err e), tr ++ pend.flatten)
  | .raised x tr => (Except.error x, tr)

/-- The async overload of `chain` (src/src/chain.ts, lines 55, 58, 60–73),
paired with the effect trace. The promise returned by `iter.next()` is
composed with `.then` (completion → `ok`; suspension → `await
iter.return(undefined)` then the yielded failure token; a rejection passes
through `.then` untouched) and handed to `ResultAsync.fromPromise`, which
does not catch rejections. -/
def chainAsync {A T E X : Type} (g : Body A T E X) : ResultAsync T E X × List Nat :=
  match next1 g with
  | .completed v tr => (ResultAsync.fromPromise (Except.ok (Result.ok v)), tr)
  | .suspended e pend tr => (ResultAsync.fromPromise (Except.ok (Result.err e)), tr ++ pend.flatten)
  | .raised x tr => (ResultAsync.fromPromise (Except.error x), tr)

/-- A Standard Schema issue, as far as the bridge inspects it: its
`message` (the optional `path` plays no role in the claims and is
elided). -/
structure Issue where
  message : String
deriving DecidableEq, Repr

/-- A Standard Schema `FailureResult`: an object carrying a non-optional
`issues` array. -/
structure FailureResult where
  issues : List Issue
deriving DecidableEq, Repr

/-- A Standard Schema validation result: `{ value }` on success or
`{ issues }` on failure (the `issues` field being present marks
failure). -/
inductive StdResult (O : Type) where
  | success (value : O)
  | failure (issues : List Issue)
deriving DecidableEq, Repr

/-- A JavaScript thrown value, as far as `toFailureResult` inspects it:
an `Error` instance carries its `.message`; any other value carries its
`String(...)` conversion. -/
inductive Thrown where
  | jsError (message : String)
  | nonError (string : String)
deriving DecidableEq, Repr

/-- `toFailureResult` (validate.ts, lines 213–216): synthesizes a
`FailureResult` with a single issue whose message is the thrown `Error`'s
message, or the `String` conversion of a non-`Error` value. -/
def toFailureResult : Thrown → FailureResult
  | .jsError m => ⟨[⟨m⟩]⟩
  | .nonError s => ⟨[⟨s⟩]⟩

/-- `convertResult` (validate.ts, lines 218–226): a result with an
`issues` field becomes `err` of that failure result; otherwise `ok` of the
`value`. -/
def convertResult {O : Type} : StdResult O → Result O FailureResult
  | .failure issues => .err ⟨issues⟩
  | .success v => .ok v

/-- `validate` (validate.ts, lines 254–264):
`ResultAsync.try(() => schema["~standard"].validate(value, options))
  .mapErr(toFailureResult).andThen(convertResult)`.
The argument is the outcome of the schema's `validate` call. -/
def validate {O : Type} (call : JsOutcome (StdResult O) Thrown) :
    ResultAsync O FailureResult Thrown :=
  ResultAsync.andThen (ResultAsync.mapErr (ResultAsync.tryFn call) toFailureResult) convertResult

/-- What a synchronous caller observes of a JavaScript call: either a
raise, or a returned value that is a plain value (`Sum.inl`) or a promise
object (`Sum.inr`, carrying how that promise will eventually settle). -/
def syncCall {A X : Type} : JsOutcome A X → Except X (A ⊕ Except X A)
  | .sync a => .ok (.inl a)
  | .threw x => .error x
  | .promised p => .ok (.inr p)

/-- `r.andThen(cb)` as executed in JavaScript when the callback `cb` may
itself raise: on `Err` the callback is never invoked, so nothing can
raise; on `Ok` the callback runs and its raise, if any, propagates. -/
def Result.andThenRaise {T E U X : Type} (r : Result T E) (fn : T → Except X (Result U E)) :
    Except X (Result U E) :=
  match r with
  | .err e => Except.ok (Result.err e)
  | .ok v => fn v

/-- The `TypeError` message raised by `validateSync` for async schemas
(validate.ts, lines 308–310). -/
def typeErrorMessage : String :=
  "Schema returned a Promise from validate(). Use validate() instead of validateSync() for async schemas."

/-- `validateSync` (validate.ts, lines 297–315):
`Result.try(() => schema["~standard"].validate(value, options))
  .mapErr(toFailureResult).andThen(result => ...)`, where the `andThen`
callback raises a `TypeError` if the returned value is a `Promise` and
otherwise applies `convertResult`. The overall `Except` is `.error msg`
when the call raises that `TypeError` out of `validateSync`. -/
def validateSync {O : Type} (call : JsOutcome (StdResult O) Thrown) :
    Except String (Result O FailureResult) :=
  Result.andThenRaise (Result.mapErr (Result.tryFn (syncCall call)) toFailureResult)
    (fun v =>
      match v with
      | .inl r => Except.ok (convertResult r)
      | .inr _ => Except.error typeErrorMessage)

/-- A `Response` object, as far as the std fetch wrapper inspects it (it
never looks inside; the HTTP status is carried to state claims about
non-2xx responses). -/
structure Response where
  status : Nat
deriving DecidableEq, Repr

/-- The std `fetch` wrapper (src/packages/std/src/fetch.ts, lines 17–22):
`ResultAsync.try(() => globalThis.fetch(input, init))`. The argument is
how the promise returned by `globalThis.fetch` settles: resolution with a
`Response`, or rejection with a reason of type `X`. -/
def fetch {X : Type} (underlying : Except X Response) : ResultAsync Response X X :=
  ResultAsync.tryFn (.promised underlying)

/-- The spec's chain short-circuit example: `yield* err("bad")` inside a
`try ... finally` (cleanup effect 3), followed by an unreached side effect
(tag 7) and an unreached `yield* ok(2)`. -/
def c1Body : Body Nat Nat String Unit :=
  .tryFin (.step (.err "bad") (fun _ => .eff 7 (.step (.ok 2) (fun _ => .ret 0)))) [3]

/-- The spec's chain success example: `a = yield* ok(1)`, `b = yield* ok(2)`,
`return a + b`. -/
def c2Body : Body Nat Nat String Unit :=
  .step (.ok 1) (fun a => .step (.ok 2) (fun b => .ret (a + b)))

/-- A step sequence that raises after one successful step. -/
def c3Body : Body Nat Nat String String :=
  .step (.ok 1) (fun _ => .throwExn "boom")

/-- A step sequence that completes immediately with 3: its first (and
only) advance signal is a non-failure signal. -/
def c4Body : Body Unit Nat String Unit := .ret 3

/-- Two step sequences whose first advance is the same yielded failure but
whose abandoned continuations differ. -/
def c4BodyA : Body Nat Nat String Unit := .step (.err "bad") (fun _ => .eff 7 (.ret 0))

/-- Companion to `c4BodyA` with a different abandoned continuation. -/
def c4BodyB : Body Nat Nat String Unit := .step (.err "bad") (fun _ => .ret 99)

/-- C1: when the generator's first advance yields a failure token, both
overloads of `chain` forcibly finalize the generator — the pending
finally/cleanup effects `pend.flatten` run at the end of the trace — and
produce the yielded failure unchanged as the composed result; the
abandoned continuation after the yield never executes (its choice cannot
affect the outcome). -/
theorem chain_yield_err_finalizes {A T E X : Type} (g : Body A T E X) (e : E)
    (pend : List (List Nat)) (tr : List Nat) (h : next1 g = .suspended e pend tr) :
    chain g = (Except.ok (Result.err e), tr ++ pend.flatten) ∧
    chainAsync g = (Except.ok (Result.err e), tr ++ pend.flatten) ∧
    ∀ k₁ k₂ : A → Body A T E X,
      chain (Body.step (Result.err e) k₁) = chain (Body.step (Result.err e) k₂) := by
  refine ⟨?_, ?_, fun k₁ k₂ => rfl⟩ <;>
    simp [chain, chainAsync, ResultAsync.fromPromise, h]

/-- C1 witness: on the spec's short-circuit example the composed result is
`err "bad"` for both overloads, the cleanup effect 3 has run, and the
unreached effect 7 is absent from the trace. -/
theorem chain_yield_err_finalizes_app :
    chain c1Body = (Except.ok (Result.err "bad"), [3]) ∧
    chainAsync c1Body = (Except.ok (Result.err "bad"), [3]) := by
  have h := chain_yield_err_finalizes c1Body "bad" [[3]] [] rfl
  exact ⟨h.1, h.2.1⟩

/-- C2: when the generator runs to completion without yielding (every
`yield*` unwrapped an `Ok`), both overloads of `chain` produce the return
value wrapped in `Ok`. -/
theorem chain_complete_ok {A T E X : Type} (g : Body A T E X) (v : T) (tr : List Nat)
    (h : next1 g = .completed v tr) :
    chain g = (Except.ok (Result.ok v), tr) ∧
    chainAsync g = (Except.ok (Result.ok v), tr) := by
  refine ⟨?_, ?_⟩ <;> simp [chain, chainAsync, ResultAsync.fromPromise, h]

/-- C2 witness: `yield* ok(1)`, `yield* ok(2)`, `return a + b` composes to
`ok 3` in both the sync overload and as the resolution of the async
overload. -/
theorem chain_complete_ok_app :
    chain c2Body = (Except.ok (Result.ok 3), []) ∧
    chainAsync c2Body = (Except.ok (Result.ok 3), []) :=
  chain_complete_ok c2Body 3 [] rfl

/-- C3: a raise inside the step-sequence body is not intercepted by either
overload of `chain` and is never converted into an `Err` result: the
composed outcome is the propagated raise itself. -/
theorem chain_raise_propagates {A T E X : Type} (g : Body A T E X) (x : X) (tr : List Nat)
    (h : next1 g = .raised x tr) :
    chain g = (Except.error x, tr) ∧
    chainAsync g = (Except.error x, tr) ∧
    ∀ r : Result T E, (chain g).fst ≠ Except.ok r := by
  refine ⟨?_, ?_, ?_⟩
  · simp [chain, h]
  · simp [chainAsync, ResultAsync.fromPromise, h]
  · intro r hr
    simp [chain, h] at hr

/-- C3 witness: a body that raises `"boom"` after one successful step
makes both overloads of `chain` propagate the raise. -/
theorem chain_raise_propagates_app :
    chain c3Body = (Except.error "boom", []) ∧
    chainAsync c3Body = (Except.error "boom", []) := by
  have h := chain_raise_propagates c3Body "boom" [] rfl
  exact ⟨h.1, h.2.1⟩

/-- C4 counterexample: on `c4Body` the very first advance signal is a
non-failure signal (completion with 3); iteration terminates, but the
composed result is `ok 3` — a success, not "the composed failure" — so
the claim that the first NON-failure signal becomes the composed failure
is false on the code. -/
theorem chain_nonfailure_signal_cex :
    next1 c4Body = .completed 3 [] ∧
    chain c4Body = (Except.ok (Result.ok 3), []) ∧
    Result.isErr (Result.ok 3 : Result Nat String) = false :=
  ⟨rfl, rfl, rfl⟩

/-- C4 (amended): the driver advances the sequence by exactly one
unwrap-or-short-circuit step — the composed outcome of either overload is
fully determined by the single first advance — and the very first FAILURE
signal encountered immediately terminates iteration and becomes the
composed failure. -/
theorem chain_single_advance {A T E X : Type} (g₁ g₂ : Body A T E X) (e : E)
    (pend : List (List Nat)) (tr : List Nat) :
    (next1 g₁ = next1 g₂ → chain g₁ = chain g₂ ∧ chainAsync g₁ = chainAsync g₂) ∧
    (next1 g₁ = .suspended e pend tr →
      (chain g₁).fst = Except.ok (Result.err e) ∧
      (chainAsync g₁).fst = Except.ok (Result.err e)) := by
  constructor
  · intro hEq
    constructor <;> simp only [chain, chainAsync, hEq]
  · intro hS
    constructor <;> simp [chain, chainAsync, ResultAsync.fromPromise, hS]

/-- C4 witness: two bodies with the same first advance (the yielded
failure `"bad"`) but different abandoned continuations compose
identically, and the composed result is the failure `err "bad"`. -/
theorem chain_single_advance_app :
    chain c4BodyA = chain c4BodyB ∧
    (chain c4BodyA).fst = Except.ok (Result.err "bad") :=
  ⟨((chain_single_advance c4BodyA c4BodyB "bad" [] []).1 rfl).1,
   ((chain_single_advance c4BodyA c4BodyB "bad" [] []).2 rfl).1⟩

/-- C5: `ResultAsync.try` on a function returning a rejecting promise
resolves to an `Err` wrapping the rejection reason, whereas
`ResultAsync.fromPromise` on a rejecting promise does not catch: the
rejection propagates as a fatal failure and the wrapper never resolves —
in particular never to an `Err`. -/
theorem fromPromise_no_catch_try_catches {T E A X : Type} (x : X) :
    ResultAsync.tryFn (A := A) (.promised (Except.error x)) = Except.ok (Result.err x) ∧
    ResultAsync.fromPromise (T := T) (E := E) (Except.error x) = Except.error x ∧
    ∀ r : Result T E, ResultAsync.fromPromise (T := T) (E := E) (Except.error x) ≠ Except.ok r := by
  refine ⟨rfl, rfl, ?_⟩
  intro r hr
  simp [ResultAsync.fromPromise] at hr

/-- C6: `Result.all` maps an all-`Ok` list to `Ok` of the unwrapped values
in input order, returns the first `Err` in iteration order unchanged when
one is present, and maps the empty list to `ok []`. -/
theorem result_all_spec {T E : Type} :
    (∀ vs : List T, Result.all (E := E) (vs.map Result.ok) = Result.ok vs) ∧
    (∀ (vs : List T) (e : E) (rest : List (Result T E)),
      Result.all (List.map Result.ok vs ++ Result.err e :: rest) = Result.err e) ∧
    Result.all (T := T) (E := E) [] = Result.ok [] := by
  refine ⟨?_, ?_, rfl⟩
  · intro vs
    induction vs with
    | nil => rfl
    | cons v vs ih => simp [Result.all, Result.map, ih]
  · intro vs e rest
    induction vs with
    | nil => rfl
    | cons v vs ih => simp [Result.all, Result.map, ih]

/-- C7: `map` applies the function only to an `Ok` payload and passes an
`Err` through unchanged; consequently mapping the identity is the
identity, and mapping `f` then `g` equals mapping their composition. -/
theorem result_map_laws {T E U V : Type} (f : T → U) (g : U → V) :
    (∀ v : T, Result.map (E := E) (Result.ok v) f = Result.ok (f v)) ∧
    (∀ e : E, Result.map (Result.err e : Result T E) f = Result.err e) ∧
    (∀ r : Result T E, r.map (fun x => x) = r) ∧
    (∀ r : Result T E, (r.map f).map g = r.map (fun x => g (f x))) := by
    refine ⟨fun v => rfl, fun e => rfl, ?_, ?_⟩ <;>
      exact fun r => by cases r <;> rfl

/-- C8: when the schema's validator throws synchronously or returns a
rejecting promise, `validate` settles to an `Err` holding a synthesized
`FailureResult` with exactly one issue whose message is the thrown
`Error`'s message (or the `String` conversion of a non-`Error` value);
and `validate` never rejects — the validator's exception never escapes. -/
theorem validate_catches_thrown {O : Type} (m s : String) :
    validate (O := O) (.threw (.jsError m)) = Except.ok (Result.err ⟨[⟨m⟩]⟩) ∧
    validate (O := O) (.promised (Except.error (.jsError m))) =
      Except.ok (Result.err ⟨[⟨m⟩]⟩) ∧
    validate (O := O) (.threw (.nonError s)) = Except.ok (Result.err ⟨[⟨s⟩]⟩) ∧
    validate (O := O) (.promised (Except.error (.nonError s))) =
      Except.ok (Result.err ⟨[⟨s⟩]⟩) ∧
    ∀ call : JsOutcome (StdResult O) Thrown, ∃ r, validate call = Except.ok r := by
  refine ⟨rfl, rfl, rfl, rfl, ?_⟩
  intro call
  cases call with
  | sync a => exact ⟨_, rfl⟩
  | threw x => exact ⟨_, rfl⟩
  | promised p => cases p with
    | ok a => exact ⟨_, rfl⟩
    | error x => exact ⟨_, rfl⟩

/-- C9: when the schema's `~standard.validate` returns a promise,
`validateSync` raises a `TypeError` whose message directs the caller to
`validate()` — whatever the promise's eventual outcome `p` — and never
returns a `Result`; the promise's outcome is never converted into `Ok` or
`Err`. -/
theorem validateSync_async_schema_raises {O : Type} (p : Except Thrown (StdResult O)) :
    validateSync (.promised p) = Except.error typeErrorMessage ∧
    typeErrorMessage =
      "Schema returned a Promise from validate(). Use validate() instead of validateSync() for async schemas." ∧
    ∀ r : Result O FailureResult, validateSync (.promised p) ≠ Except.ok r := by
  refine ⟨rfl, rfl, ?_⟩
  intro r hr
  simp [validateSync, syncCall, Result.tryFn, Result.mapErr, Result.andThenRaise] at hr

/-- C10: when the underlying `globalThis.fetch` settles with a `Response`,
the std `fetch` wrapper resolves to `Ok` of that response regardless of
HTTP status; and its result is an `Err` if and only if the underlying
fetch rejected. -/
theorem fetch_ok_unless_reject {X : Type} (x : X) (s : Nat) :
    fetch (X := X) (Except.ok ⟨s⟩) = Except.ok (Result.ok ⟨s⟩) ∧
    fetch (Except.error x) = Except.ok (Result.err x) ∧
    ∀ u : Except X Response,
      (∃ e, fetch u = Except.ok (Result.err e)) ↔ ∃ e, u = Except.error e := by
  refine ⟨rfl, rfl, ?_⟩
  intro u
  cases u with
  | ok r =>
    simp [fetch, ResultAsync.tryFn]
  | error e =>
    simp [fetch, ResultAsync.tryFn]

/-- C5 witness: at the concrete rejection reason `"reason"`,
`ResultAsync.try` resolves to `err "reason"` while
`ResultAsync.fromPromise` stays a rejection. -/
theorem fromPromise_no_catch_try_catches_app :
    ResultAsync.tryFn (A := Nat) (.promised (Except.error "reason")) =
      Except.ok (Result.err "reason") ∧
    ResultAsync.fromPromise (T := Nat) (E := String) (Except.error "reason") =
      Except.error "reason" :=
  ⟨(fromPromise_no_catch_try_catches (T := Nat) (E := String) (A := Nat) "reason").1,
   (fromPromise_no_catch_try_catches (T := Nat) (E := String) (A := Nat) "reason").2.1⟩

/-- C6 witness: the spec's concrete instances,
`Result.all [ok 1, ok 2] = ok [1, 2]`,
`Result.all [ok 1, err "x", ok 3] = err "x"` and `Result.all [] = ok []`. -/
theorem result_all_spec_app :
    Result.all (E := String) [Result.ok 1, Result.ok 2] = Result.ok ([1, 2] : List Nat) ∧
    Result.all [Result.ok (1 : Nat), Result.err "x", Result.ok 3] = Result.err "x" ∧
    Result.all (T := Nat) (E := String) [] = Result.ok [] :=
  ⟨(result_all_spec (T := Nat) (E := String)).1 [1, 2],
   (result_all_spec (T := Nat) (E := String)).2.1 [1] "x" [Result.ok 3],
   (result_all_spec (T := Nat) (E := String)).2.2⟩

/-- C7 witness: the map laws evaluated at concrete values and functions. -/
theorem result_map_laws_app :
    Result.map (E := String) (Result.ok 2) (fun x => x * 2) = Result.ok 4 ∧
    Result.map (Result.err "oops" : Result Nat String) (fun x => x * 2) = Result.err "oops" ∧
    Result.map (Result.ok 5 : Result Nat String) (fun x => x) = Result.ok 5 ∧
    (Result.map (Result.ok 2 : Result Nat String) (fun x => x * 2)).map (fun x => x + 1) =
      Result.map (Result.ok 2 : Result Nat String) (fun x => x * 2 + 1) :=
  ⟨(result_map_laws (E := String) (fun x => x * 2) (fun x => x + 1)).1 2,
   (result_map_laws (E := String) (fun x => x * 2) (fun x => x + 1)).2.1 "oops",
   (result_map_laws (E := String) (fun x => x * 2) (fun x => x + 1)).2.2.1 (Result.ok 5),
   (result_map_laws (E := String) (fun x => x * 2) (fun x => x + 1)).2.2.2 (Result.ok 2)⟩

/-- C8 witness: the validator throwing `Error("validator exploded")`, its
promise rejecting with `Error("async explosion")`, and a thrown non-Error
`"string error"` each settle to an `Err` with exactly that single-issue
message; a concrete call never rejects. -/
theorem validate_catches_thrown_app :
    validate (O := Nat) (.threw (.jsError "validator exploded")) =
      Except.ok (Result.err ⟨[⟨"validator exploded"⟩]⟩) ∧
    validate (O := Nat) (.promised (Except.error (.jsError "async explosion"))) =
      Except.ok (Result.err ⟨[⟨"async explosion"⟩]⟩) ∧
    validate (O := Nat) (.threw (.nonError "string error")) =
      Except.ok (Result.err ⟨[⟨"string error"⟩]⟩) ∧
    ∃ r, validate (O := Nat) (.threw (.jsError "validator exploded")) = Except.ok r :=
  ⟨(validate_catches_thrown (O := Nat) "validator exploded" "string error").1,
   (validate_catches_thrown (O := Nat) "async explosion" "string error").2.1,
   (validate_catches_thrown (O := Nat) "validator exploded" "string error").2.2.1,
   (validate_catches_thrown (O := Nat) "validator exploded" "string error").2.2.2.2
     (.threw (.jsError "validator exploded"))⟩

/-- C9 witness: for a schema whose validator returns a promise resolving
to `success 1`, `validateSync` raises the `TypeError` message. -/
theorem validateSync_async_schema_raises_app :
    validateSync (O := Nat) (.promised (Except.ok (StdResult.success 1))) =
      Except.error typeErrorMessage :=
  (validateSync_async_schema_raises (O := Nat) (Except.ok (StdResult.success 1))).1

/-- C10 witness: a response with HTTP status 404 still resolves to `Ok`,
and a rejection with reason `"network down"` resolves to `Err` of that
reason. -/
theorem fetch_ok_unless_reject_app :
    fetch (X := String) (Except.ok ⟨404⟩) = Except.ok (Result.ok ⟨404⟩) ∧
    fetch (Except.error "network down") = Except.ok (Result.err "network down") :=
  ⟨(fetch_ok_unless_reject (X := String) "network down" 404).1,
   (fetch_ok_unless_reject (X := String) "network down" 404).2.1⟩

end Antithrow
